import Mathlib

/-!
Verification of the reva Nextcloud storage driver
(`pkg/storage/fs/nextcloud/nextcloud.go`, in two variants) against its
natural-language specification.

The Go code is shallowly embedded: every driver method becomes a pure Lean
function from the driver, the request context and the method arguments to an
`Eff` record holding the driver state the method leaves behind, the list of
HTTP requests it issued (in order), and its outcome.  The HTTP client
(`nc.client`) is a field of the driver, modelled as a function from requests
to either a transport error or a response, so that one call of the embedded
method replays exactly the requests the Go method would issue against that
client.  A Go `panic` is a distinct outcome (`Res.crash`), never an error
return.  JSON values are a small inductive type; `json.Marshal` of the
concrete parameter structs is embedded by rendering the corresponding
`Json` value, and `json.Unmarshal` is embedded by letting the environment
deliver a response body either as parsed JSON or as malformed data
(`BodyData`), mirroring that unmarshalling either yields a parse tree or
fails.  `http.NewRequest` is modelled as always succeeding: its only failure
mode is URL parsing inside the Go standard library, outside this repository.

Namespace `NCA` embeds `src/pkg/storage/fs/nextcloud/nextcloud.go`;
namespace `NCB` embeds the variant in `src/unnamed/part_000` where the two
files differ (their helpers `do`, `doUpload`, `doDownload`,
`doDownloadRevision` and `getUser` are textually identical and are embedded
once, before the namespaces).
-/

namespace Reva

/-- A JSON value, as produced by Go's encoding/json.  Numbers are modelled
as integers: every number this driver reads or writes is integral. -/
inductive Json where
  | null : Json
  | bool (b : Bool) : Json
  | num (n : Int) : Json
  | str (s : String) : Json
  | arr (xs : List Json) : Json
  | obj (fields : List (String × Json)) : Json
deriving Inhabited

/-- Minimal JSON string escaping (quote and backslash), enough for the
strings occurring in this development. -/
def escapeJsonStr (s : String) : String :=
  String.join (s.toList.map fun c =>
    if c = '"' then "\\\"" else if c = '\\' then "\\\\" else String.singleton c)

def renderStr (s : String) : String :=
  "\"" ++ escapeJsonStr s ++ "\""

def joinComma (xs : List String) : String :=
  String.intercalate "," xs

mutual

/-- Rendering of a JSON value to its wire form, embedding `json.Marshal`. -/
def Json.render : Json → String
  | .null => "null"
  | .bool b => if b then "true" else "false"
  | .num n => toString n
  | .str s => renderStr s
  | .arr xs => "[" ++ joinComma (renderList xs) ++ "]"
  | .obj fs => "\x7b" ++ joinComma (renderFields fs) ++ "\x7d"

def renderList : List Json → List String
  | [] => []
  | j :: js => j.render :: renderList js

def renderFields : List (String × Json) → List String
  | [] => []
  | (k, v) :: fs => (renderStr k ++ ":" ++ v.render) :: renderFields fs

end

/-- Field lookup in a JSON object, embedding `respMap[key]` on a
`map[string]interface` decoded from JSON (missing key yields nil). -/
def lookupField (fs : List (String × Json)) (k : String) : Option Json :=
  match fs with
  | [] => none
  | (k', v) :: rest => if k' = k then some v else lookupField rest k

/-- A response body as the driver sees it after `io.ReadAll`: either data
that parses as JSON (delivered as its parse tree) or malformed data
(delivered raw), so that `json.Unmarshal` either has a value to decode or
fails. -/
inductive BodyData where
  | json (j : Json) : BodyData
  | malformed (raw : String) : BodyData
deriving Inhabited

/-- The raw characters of a body, embedding `string(respBody)`. -/
def bodyString : BodyData → String
  | .json j => j.render
  | .malformed raw => raw

/-- An HTTP request as this driver builds one: method, URL, the single
header the code ever sets (Content-Type), and the request body. -/
structure HttpRequest where
  method : String
  url : String
  contentType : Option String
  body : String
deriving DecidableEq, Inhabited

/-- An HTTP response: status code, and the result of reading the body
(`io.ReadAll` may fail). -/
structure HttpResponse where
  statusCode : Nat
  body : Except String BodyData

/-- The behaviour of `nc.client.Do`: a transport error or a response. -/
def Client := HttpRequest → Except String HttpResponse

/-- The user found in the request context (`ctxpkg.ContextGetUser`). -/
structure User where
  username : String

/-- The request context: either carries a user or does not. -/
structure Ctx where
  user : Option User

/-- StorageDriver (nextcloud.go lines 54-57): the configured endpoint and
the HTTP client. -/
structure StorageDriver where
  endPoint : String
  client : Client

/-- Action (nextcloud.go lines 101-104): a REST request to forward to the
Nextcloud backend. -/
structure Action where
  verb : String
  argS : String

/-- The errors a driver method can return (each constructor carries the
message of the corresponding Go error value). -/
inductive Err where
  | userRequired (msg : String) : Err
  | notFound (msg : String) : Err
  | transport (msg : String) : Err
  | bodyRead (msg : String) : Err
  | unmarshal (msg : String) : Err
  | unimplemented (msg : String) : Err
deriving DecidableEq

/-- Outcome of a driver method: a returned value, a returned non-nil
error, or a Go panic (`crash`). -/
inductive Res (α : Type) where
  | ok (a : α) : Res α
  | err (e : Err) : Res α
  | crash (msg : String) : Res α
deriving DecidableEq

def Res.map (f : α → β) : Res α → Res β
  | .ok a => .ok (f a)
  | .err e => .err e
  | .crash m => .crash m

/-- Forget the value of an outcome, keeping whether it was a value, an
error or a panic. -/
def Res.void : Res α → Res Unit := Res.map fun _ => ()

/-- What one call of a driver method does: the driver state it leaves, the
HTTP requests it issued in order, and its outcome. -/
structure Eff (α : Type) where
  driver : StorageDriver
  trace : List HttpRequest
  result : Res α

/-- Post-compose the outcome of a call; driver state and trace unchanged. -/
def Eff.mapRes (e : Eff α) (f : Res α → Res β) : Eff β :=
  ⟨e.driver, e.trace, f e.result⟩

def Eff.void (e : Eff α) : Eff Unit := e.mapRes Res.void

/-- The error message of getUser (nextcloud.go lines 106-113). -/
def userRequiredMsg : String :=
  "nextcloud storage driver: error getting user from ctx"

/-- The request the `do` helper builds (nextcloud.go lines 200-207): a POST
to endPoint + tilde + username + "/api/" + verb, Content-Type
application/json, body the action's argument string. -/
def mkDoReq (nc : StorageDriver) (u : User) (a : Action) : HttpRequest :=
  ⟨"POST", nc.endPoint ++ "~" ++ u.username ++ "/api/" ++ a.verb,
    some "application/json", a.argS⟩

/-- The `do` helper (nextcloud.go lines 194-221, named `do` in Go, a Lean
keyword): resolve the user, issue one POST, read the body, and return the
status code and body; transport and read failures are returned as errors. -/
def doResult : Except String HttpResponse → Res (Nat × BodyData)
  | .error m => .err (.transport m)
  | .ok resp =>
    match resp.body with
    | .error m => .err (.bodyRead m)
    | .ok bd => .ok (resp.statusCode, bd)

def doAction (nc : StorageDriver) (ctx : Ctx) (a : Action) :
    Eff (Nat × BodyData) :=
  match ctx.user with
  | none => ⟨nc, [], .err (.userRequired userRequiredMsg)⟩
  | some u =>
    let req := mkDoReq nc u a
    ⟨nc, [req], doResult (nc.client req)⟩

/-- doUpload (nextcloud.go lines 120-145): one PUT with Content-Type
text/plain; a transport failure panics (`panic(err)` at line 139), a body
read failure is returned as the method's error. -/
def uploadResult : Except String HttpResponse → Res Unit
  | .error m => .crash m
  | .ok resp =>
    match resp.body with
    | .error m => .err (.bodyRead m)
    | .ok _ => .ok ()

def doUpload (nc : StorageDriver) (ctx : Ctx) (filePath : String)
    (content : String) : Eff Unit :=
  match ctx.user with
  | none => ⟨nc, [], .err (.userRequired userRequiredMsg)⟩
  | some u =>
    let req : HttpRequest :=
      ⟨"PUT", nc.endPoint ++ "~" ++ u.username ++ "/api/Upload/" ++ filePath,
        some "text/plain", content⟩
    ⟨nc, [req], uploadResult (nc.client req)⟩

/-- doDownload (nextcloud.go lines 147-169): one GET; a transport failure
panics (line 163), a non-200 status panics (line 165); on 200 the unread
response body is returned. -/
def downloadResult : Except String HttpResponse → Res (Except String BodyData)
  | .error m => .crash m
  | .ok resp =>
    if resp.statusCode ≠ 200 then
      .crash "No 200 response code in download request"
    else
      .ok resp.body

def doDownload (nc : StorageDriver) (ctx : Ctx) (filePath : String) :
    Eff (Except String BodyData) :=
  match ctx.user with
  | none => ⟨nc, [], .err (.userRequired userRequiredMsg)⟩
  | some u =>
    let req : HttpRequest :=
      ⟨"GET", nc.endPoint ++ "~" ++ u.username ++ "/api/Download/" ++ filePath,
        none, ""⟩
    ⟨nc, [req], downloadResult (nc.client req)⟩

/-- Embeds Go's url.QueryEscape for the byte range this code exercises:
unreserved ASCII characters pass through, space becomes +, every other
character is percent-encoded. -/
def hexDigitChar (n : Nat) : Char :=
  if n < 10 then Char.ofNat (48 + n) else Char.ofNat (55 + n)

def queryEscapeChar (c : Char) : String :=
  if c.isAlphanum ∨ c = '-' ∨ c = '_' ∨ c = '.' ∨ c = '~' then
    String.singleton c
  else if c = ' ' then "+"
  else
    "%" ++ String.singleton (hexDigitChar (c.toNat / 16)) ++
      String.singleton (hexDigitChar (c.toNat % 16))

def queryEscape (s : String) : String :=
  String.join (s.toList.map queryEscapeChar)

/-- doDownloadRevision (nextcloud.go lines 171-192): one GET against
endPoint + tilde + username + "/api/DownloadRevision/" + escaped key + "/"
+ path; panics mirror doDownload. -/
def doDownloadRevision (nc : StorageDriver) (ctx : Ctx) (filePath : String)
    (key : String) : Eff (Except String BodyData) :=
  match ctx.user with
  | none => ⟨nc, [], .err (.userRequired userRequiredMsg)⟩
  | some u =>
    let req : HttpRequest :=
      ⟨"GET", nc.endPoint ++ "~" ++ u.username ++ "/api/DownloadRevision/" ++
          queryEscape key ++ "/" ++ filePath, none, ""⟩
    ⟨nc, [req], downloadResult (nc.client req)⟩


/-- The message of a json.Unmarshal failure on malformed input. -/
def invalidJsonMsg : String := "invalid JSON"

def resOfExcept : Except String α → Res α
  | .ok a => .ok a
  | .error m => .err (.unmarshal m)

def Res.bind : Res α → (α → Res β) → Res β
  | .ok a, f => f a
  | .err e, _ => .err e
  | .crash m, _ => .crash m

/-- provider.ResourceId, as this driver reads and writes it. -/
structure ResourceId where
  storageId : String
  oid : String
deriving DecidableEq, Inhabited

/-- provider.Reference: an optional resource id and a path. -/
structure Reference where
  resourceId : Option ResourceId
  path : String
deriving DecidableEq, Inhabited

/-- json.Marshal of a ResourceId (protobuf json tags storage_id and
opaque_id, both omitempty). -/
def resourceIdJson (rid : ResourceId) : Json :=
  .obj ((if rid.storageId = "" then [] else [("storage_id", .str rid.storageId)]) ++
    (if rid.oid = "" then [] else [("opaque_id", .str rid.oid)]))

/-- json.Marshal of a Reference (tags resource_id and path, omitempty). -/
def refJson (r : Reference) : Json :=
  .obj ((match r.resourceId with
      | none => []
      | some rid => [("resource_id", resourceIdJson rid)]) ++
    (if r.path = "" then [] else [("path", .str r.path)]))

def strListJson (xs : List String) : Json := .arr (xs.map Json.str)

def strMapJson (m : List (String × String)) : Json :=
  .obj (m.map fun kv => (kv.1, .str kv.2))

/-- provider.ResourcePermissions: the eighteen permission flags. -/
structure ResourcePermissions where
  addGrant : Bool
  createContainer : Bool
  delete : Bool
  getPath : Bool
  getQuota : Bool
  initiateFileDownload : Bool
  initiateFileUpload : Bool
  listGrants : Bool
  listContainer : Bool
  listFileVersions : Bool
  listRecycle : Bool
  move : Bool
  removeGrant : Bool
  purgeRecycle : Bool
  restoreFileVersion : Bool
  restoreRecycleItem : Bool
  stat : Bool
  updateGrant : Bool
deriving DecidableEq, Inhabited

def permBoolFields (p : ResourcePermissions) : List (String × Bool) :=
  [("add_grant", p.addGrant), ("create_container", p.createContainer),
   ("delete", p.delete), ("get_path", p.getPath), ("get_quota", p.getQuota),
   ("initiate_file_download", p.initiateFileDownload),
   ("initiate_file_upload", p.initiateFileUpload),
   ("list_grants", p.listGrants), ("list_container", p.listContainer),
   ("list_file_versions", p.listFileVersions),
   ("list_recycle", p.listRecycle), ("move", p.move),
   ("remove_grant", p.removeGrant), ("purge_recycle", p.purgeRecycle),
   ("restore_file_version", p.restoreFileVersion),
   ("restore_recycle_item", p.restoreRecycleItem), ("stat", p.stat),
   ("update_grant", p.updateGrant)]

/-- json.Marshal of ResourcePermissions (snake_case tags, omitempty: false
flags are omitted). -/
def permissionsJson (p : ResourcePermissions) : Json :=
  .obj ((permBoolFields p).filterMap fun kb =>
    if kb.2 then some (kb.1, Json.bool true) else none)

/-- provider.Grantee with a user id (the only grantee shape this driver
builds or reads): idp, user opaque id, user type (as the enum's number). -/
structure Grantee where
  idp : String
  oid : String
  typ : Int
deriving DecidableEq, Inhabited

/-- json.Marshal of a Grantee: the oneof Id field has no json tag, so the
standard library emits the wrapper keys Id and UserId, the shape
part_000's ListGrants reads back at its lines 698-699. -/
def granteeJson (g : Grantee) : Json :=
  .obj [("Id", .obj [("UserId", .obj
    ((if g.idp = "" then [] else [("idp", .str g.idp)]) ++
     (if g.oid = "" then [] else [("opaque_id", .str g.oid)]) ++
     (if g.typ = 0 then [] else [("type", .num g.typ)])))])]

/-- provider.Grant: a grantee and its permissions. -/
structure Grant where
  grantee : Grantee
  permissions : ResourcePermissions
deriving DecidableEq, Inhabited

def grantJson (g : Grant) : Json :=
  .obj [("grantee", granteeJson g.grantee),
        ("permissions", permissionsJson g.permissions)]

/-- provider.ArbitraryMetadata: a string-to-string map (tag metadata,
omitempty). -/
def arbMdJson (md : List (String × String)) : Json :=
  .obj (if md = [] then [] else [("metadata", strMapJson md)])

/-- The fields of provider.ResourceInfo that this repository reads or
writes: resource type (enum number), id opaque id, etag, mime type, mtime
seconds, path, size, owner opaque id, arbitrary metadata. -/
structure ResourceInfo where
  typ : Nat
  idOid : String
  etag : String
  mimeType : String
  mtimeSeconds : Nat
  path : String
  size : Nat
  ownerOid : String
  metadata : List (String × String)
deriving DecidableEq, Inhabited

/-- provider.FileVersion: key, size, mtime, etag. -/
structure FileVersion where
  key : String
  size : Nat
  mtime : Nat
  etag : String
deriving DecidableEq, Inhabited

/-- provider.RecycleItem as this driver fills it: key, reference path,
size, deletion time seconds. -/
structure RecycleItem where
  key : String
  refPath : String
  size : Nat
  deletionSeconds : Nat
deriving DecidableEq, Inhabited

/-- provider.StorageSpace as ListStorageSpaces constructs it. -/
structure StorageSpace where
  kvMap : List (String × String)
  id : String
  ownerIdp : String
  ownerOid : String
  rootStorageId : String
  rootOid : String
  name : String
  quotaMaxBytes : Nat
  quotaMaxFiles : Nat
  spaceType : String
  mtimeSeconds : Nat
deriving DecidableEq, Inhabited

/-- Lenient typed field read, as json.Unmarshal into a struct: a missing
field keeps the zero value, a field of the wrong JSON type is an error. -/
def fieldStr (fs : List (String × Json)) (k : String) : Except String String :=
  match lookupField fs k with
  | none => .ok ""
  | some (.str s) => .ok s
  | some _ => .error k

def fieldNat (fs : List (String × Json)) (k : String) : Except String Nat :=
  match lookupField fs k with
  | none => .ok 0
  | some (.num n) => if n < 0 then .error k else .ok n.toNat
  | some _ => .error k

def fieldBool (fs : List (String × Json)) (k : String) : Except String Bool :=
  match lookupField fs k with
  | none => .ok false
  | some (.bool b) => .ok b
  | some _ => .error k

def fieldObj (fs : List (String × Json)) (k : String) :
    Except String (List (String × Json)) :=
  match lookupField fs k with
  | none => .ok []
  | some (.obj fs') => .ok fs'
  | some .null => .ok []
  | some _ => .error k

/-- All values of an object must be strings (unmarshal into a
string-to-string map). -/
def strPairs : List (String × Json) → Except String (List (String × String))
  | [] => .ok []
  | (k, .str v) :: rest =>
    match strPairs rest with
    | .error e => .error e
    | .ok l => .ok ((k, v) :: l)
  | (k, _) :: _ => .error k

/-- Decoding a JSON value into a ResourceInfo, as json.Unmarshal into
provider.ResourceInfo does (snake_case protobuf json tags). -/
def decodeResourceInfo (j : Json) : Except String ResourceInfo :=
  match j with
  | .obj fs => do
    let typ ← fieldNat fs "type"
    let idFs ← fieldObj fs "id"
    let idO ← fieldStr idFs "opaque_id"
    let etag ← fieldStr fs "etag"
    let mime ← fieldStr fs "mime_type"
    let mtFs ← fieldObj fs "mtime"
    let mt ← fieldNat mtFs "seconds"
    let path ← fieldStr fs "path"
    let size ← fieldNat fs "size"
    let ownFs ← fieldObj fs "owner"
    let own ← fieldStr ownFs "opaque_id"
    let amFs ← fieldObj fs "arbitrary_metadata"
    let mdFs ← fieldObj amFs "metadata"
    let md ← strPairs mdFs
    .ok ⟨typ, idO, etag, mime, mt, path, size, own, md⟩
  | _ => .error "cannot unmarshal into ResourceInfo"

def decodeFileVersion (j : Json) : Except String FileVersion :=
  match j with
  | .obj fs => do
    let key ← fieldStr fs "key"
    let size ← fieldNat fs "size"
    let mt ← fieldNat fs "mtime"
    let etag ← fieldStr fs "etag"
    .ok ⟨key, size, mt, etag⟩
  | _ => .error "cannot unmarshal into FileVersion"

def decodeRecycleItem (j : Json) : Except String RecycleItem :=
  match j with
  | .obj fs => do
    let key ← fieldStr fs "key"
    let refFs ← fieldObj fs "ref"
    let rp ← fieldStr refFs "path"
    let size ← fieldNat fs "size"
    let dtFs ← fieldObj fs "deletion_time"
    let dt ← fieldNat dtFs "seconds"
    .ok ⟨key, rp, size, dt⟩
  | _ => .error "cannot unmarshal into RecycleItem"

def decodeGrant (j : Json) : Except String Grant :=
  match j with
  | .obj fs => do
    let gFs ← fieldObj fs "grantee"
    let idFs ← fieldObj gFs "Id"
    let uFs ← fieldObj idFs "UserId"
    let idp ← fieldStr uFs "idp"
    let oid ← fieldStr uFs "opaque_id"
    let typ ← fieldNat uFs "type"
    let pFs ← fieldObj fs "permissions"
    let ag ← fieldBool pFs "add_grant"
    let cc ← fieldBool pFs "create_container"
    let de ← fieldBool pFs "delete"
    let gp ← fieldBool pFs "get_path"
    let gq ← fieldBool pFs "get_quota"
    let ifd ← fieldBool pFs "initiate_file_download"
    let ifu ← fieldBool pFs "initiate_file_upload"
    let lg ← fieldBool pFs "list_grants"
    let lc ← fieldBool pFs "list_container"
    let lfv ← fieldBool pFs "list_file_versions"
    let lr ← fieldBool pFs "list_recycle"
    let mv ← fieldBool pFs "move"
    let rg ← fieldBool pFs "remove_grant"
    let pr ← fieldBool pFs "purge_recycle"
    let rfv ← fieldBool pFs "restore_file_version"
    let rri ← fieldBool pFs "restore_recycle_item"
    let st ← fieldBool pFs "stat"
    let ug ← fieldBool pFs "update_grant"
    .ok ⟨⟨idp, oid, Int.ofNat typ⟩,
         ⟨ag, cc, de, gp, gq, ifd, ifu, lg, lc, lfv, lr, mv, rg, pr, rfv, rri, st, ug⟩⟩
  | _ => .error "cannot unmarshal into Grant"

/-- json.Unmarshal of a body straight into a provider.ResourceInfo. -/
def unmarshalResourceInfo (bd : BodyData) : Except String ResourceInfo :=
  match bd with
  | .malformed _ => .error invalidJsonMsg
  | .json j => decodeResourceInfo j

/-- json.Unmarshal of a body into a struct-like object: malformed data or
a non-object value is an error. -/
def unmarshalObjMap (bd : BodyData) : Except String (List (String × Json)) :=
  match bd with
  | .malformed _ => .error invalidJsonMsg
  | .json (.obj fs) => .ok fs
  | .json _ => .error "cannot unmarshal into object"

/-- json.Unmarshal of a body into a map of strings. -/
def unmarshalStrMap (bd : BodyData) : Except String (List (String × String)) :=
  match unmarshalObjMap bd with
  | .error e => .error e
  | .ok fs => strPairs fs

/-- Ordered elementwise decoding of a JSON array, the embedding of
json.Unmarshal into a typed slice: the first failing element fails the
whole decode. -/
def mapExcept (f : α → Except ε β) : List α → Except ε (List β)
  | [] => .ok []
  | a :: as' =>
    match f a with
    | .error e => .error e
    | .ok b =>
      match mapExcept f as' with
      | .error e => .error e
      | .ok bs => .ok (b :: bs)

/-- json.Unmarshal of a body into a typed slice: the body must be a JSON
array, and each element is decoded in order. -/
def unmarshalArr (dec : Json → Except String α) (bd : BodyData) :
    Except String (List α) :=
  match bd with
  | .malformed _ => .error invalidJsonMsg
  | .json (.arr xs) => mapExcept dec xs
  | .json _ => .error "cannot unmarshal into slice"

/-- json.Unmarshal of a body into a slice of untyped values. -/
def unmarshalRawArr (bd : BodyData) : Except String (List Json) :=
  match bd with
  | .malformed _ => .error invalidJsonMsg
  | .json (.arr xs) => .ok xs
  | .json _ => .error "cannot unmarshal into slice"

/-- A Go type assertion x.(T) on a map lookup: panics ("interface
conversion") when the key is absent or the value has another type. -/
def assertStr : Option Json → Res String
  | some (.str s) => .ok s
  | _ => .crash "interface conversion"

def assertNum : Option Json → Res Int
  | some (.num n) => .ok n
  | _ => .crash "interface conversion"

def assertObj : Option Json → Res (List (String × Json))
  | some (.obj fs) => .ok fs
  | _ => .crash "interface conversion"

def assertObjJ (j : Json) : Res (List (String × Json)) :=
  match j with
  | .obj fs => .ok fs
  | _ => .crash "interface conversion"

/-- All values of an object must be strings, with a panic (not an error)
on a value of another type: v.(string) inside a range loop. -/
def strPairsCrash : List (String × Json) → Res (List (String × String))
  | [] => .ok []
  | (k, .str v) :: rest =>
    (strPairsCrash rest).bind fun l => .ok ((k, v) :: l)
  | (_, _) :: _ => .crash "interface conversion"

/-- Ordered elementwise decoding where a failing element is a panic or an
error of the whole loop (for the hand-written response loops). -/
def mapRes (f : α → Res β) : List α → Res (List β)
  | [] => .ok []
  | a :: as' =>
    (f a).bind fun b => (mapRes f as').bind fun bs => .ok (b :: bs)

/-- The request parameters of GetMD and ListFolder (their identical
paramsObj): ref and mdKeys. -/
def refMdKeysParams (ref : Reference) (mdKeys : List String) : Json :=
  .obj [("ref", refJson ref), ("mdKeys", strListJson mdKeys)]

namespace NCA

/-- GetHome (nextcloud.go lines 224-230). -/
def GetHome (nc : StorageDriver) (ctx : Ctx) : Eff String :=
  (doAction nc ctx ⟨"GetHome", ""⟩).mapRes fun r =>
    r.map fun p => bodyString p.2

/-- CreateHome (lines 233-239). -/
def CreateHome (nc : StorageDriver) (ctx : Ctx) : Eff Unit :=
  (doAction nc ctx ⟨"CreateHome", ""⟩).void

/-- CreateDir (lines 242-252): the reference itself is the body. -/
def CreateDir (nc : StorageDriver) (ctx : Ctx) (ref : Reference) : Eff Unit :=
  (doAction nc ctx ⟨"CreateDir", (refJson ref).render⟩).void

/-- Delete (lines 255-265). -/
def Delete (nc : StorageDriver) (ctx : Ctx) (ref : Reference) : Eff Unit :=
  (doAction nc ctx ⟨"Delete", (refJson ref).render⟩).void

/-- The body Move marshals (lines 269-277): a struct with json tags oldRef
and newRef, in that field order. -/
def moveParams (oldRef newRef : Reference) : Json :=
  .obj [("oldRef", refJson oldRef), ("newRef", refJson newRef)]

/-- Move (lines 268-283). -/
def Move (nc : StorageDriver) (ctx : Ctx) (oldRef newRef : Reference) :
    Eff Unit :=
  (doAction nc ctx ⟨"Move", (moveParams oldRef newRef).render⟩).void

/-- GetMD (lines 286-313): 404 becomes errtypes.NotFound, any other status
is deserialized into a ResourceInfo. -/
def GetMD (nc : StorageDriver) (ctx : Ctx) (ref : Reference)
    (mdKeys : List String) : Eff ResourceInfo :=
  (doAction nc ctx ⟨"GetMD", (refMdKeysParams ref mdKeys).render⟩).mapRes
    fun r => r.bind fun p =>
      if p.1 = 404 then .err (.notFound "")
      else
        match unmarshalResourceInfo p.2 with
        | .error m => .err (.unmarshal m)
        | .ok ri => .ok ri

/-- ListFolder (lines 316-349): 404 becomes errtypes.NotFound, any other
status is deserialized into a slice of ResourceInfo. -/
def ListFolder (nc : StorageDriver) (ctx : Ctx) (ref : Reference)
    (mdKeys : List String) : Eff (List ResourceInfo) :=
  (doAction nc ctx ⟨"ListFolder", (refMdKeysParams ref mdKeys).render⟩).mapRes
    fun r => r.bind fun p =>
      if p.1 = 404 then .err (.notFound "")
      else
        match unmarshalArr decodeResourceInfo p.2 with
        | .error m => .err (.unmarshal m)
        | .ok l => .ok l

/-- The body InitiateUpload marshals (lines 353-363). -/
def initiateUploadParams (ref : Reference) (uploadLength : Int)
    (metadata : List (String × String)) : Json :=
  .obj [("ref", refJson ref), ("uploadLength", .num uploadLength),
        ("metadata", strMapJson metadata)]

/-- InitiateUpload (lines 352-377). -/
def InitiateUpload (nc : StorageDriver) (ctx : Ctx) (ref : Reference)
    (uploadLength : Int) (metadata : List (String × String)) :
    Eff (List (String × String)) :=
  (doAction nc ctx
      ⟨"InitiateUpload", (initiateUploadParams ref uploadLength metadata).render⟩).mapRes
    fun r => r.bind fun p =>
      match unmarshalStrMap p.2 with
      | .error m => .err (.unmarshal m)
      | .ok m => .ok m

/-- Upload (lines 380-382): delegates to doUpload with the reference's
path. -/
def Upload (nc : StorageDriver) (ctx : Ctx) (ref : Reference)
    (content : String) : Eff Unit :=
  doUpload nc ctx ref.path content

/-- Download (lines 385-387): delegates to doDownload. -/
def Download (nc : StorageDriver) (ctx : Ctx) (ref : Reference) :
    Eff (Except String BodyData) :=
  doDownload nc ctx ref.path

/-- ListRevisions (lines 390-411): the reference is the body; the response
is deserialized into a slice of FileVersion. -/
def ListRevisions (nc : StorageDriver) (ctx : Ctx) (ref : Reference) :
    Eff (List FileVersion) :=
  (doAction nc ctx ⟨"ListRevisions", (refJson ref).render⟩).mapRes
    fun r => r.bind fun p =>
      match unmarshalArr decodeFileVersion p.2 with
      | .error m => .err (.unmarshal m)
      | .ok l => .ok l

/-- DownloadRevision (lines 414-420). -/
def DownloadRevision (nc : StorageDriver) (ctx : Ctx) (ref : Reference)
    (key : String) : Eff (Except String BodyData) :=
  doDownloadRevision nc ctx ref.path key

/-- RestoreRevision (lines 423-438): body with tags ref and key. -/
def RestoreRevision (nc : StorageDriver) (ctx : Ctx) (ref : Reference)
    (key : String) : Eff Unit :=
  (doAction nc ctx
    ⟨"RestoreRevision", (Json.obj [("ref", refJson ref), ("key", .str key)]).render⟩).void

/-- ListRecycle (lines 441-469): body with tags key and path; response
deserialized into a slice of RecycleItem. -/
def ListRecycle (nc : StorageDriver) (ctx : Ctx) (key : String)
    (path : String) : Eff (List RecycleItem) :=
  (doAction nc ctx
      ⟨"ListRecycle", (Json.obj [("key", .str key), ("path", .str path)]).render⟩).mapRes
    fun r => r.bind fun p =>
      match unmarshalArr decodeRecycleItem p.2 with
      | .error m => .err (.unmarshal m)
      | .ok l => .ok l

/-- RestoreRecycleItem (lines 472-490). -/
def RestoreRecycleItem (nc : StorageDriver) (ctx : Ctx) (key : String)
    (path : String) (restoreRef : Reference) : Eff Unit :=
  (doAction nc ctx
    ⟨"RestoreRecycleItem",
      (Json.obj [("key", .str key), ("path", .str path),
                 ("restoreRef", refJson restoreRef)]).render⟩).void

/-- PurgeRecycleItem (lines 493-508). -/
def PurgeRecycleItem (nc : StorageDriver) (ctx : Ctx) (key : String)
    (path : String) : Eff Unit :=
  (doAction nc ctx
    ⟨"PurgeRecycleItem",
      (Json.obj [("key", .str key), ("path", .str path)]).render⟩).void

/-- EmptyRecycle (lines 511-517). -/
def EmptyRecycle (nc : StorageDriver) (ctx : Ctx) : Eff Unit :=
  (doAction nc ctx ⟨"EmptyRecycle", ""⟩).void

/-- GetPathByID (lines 520-524): the id is the body, the raw response body
is the result. -/
def GetPathByID (nc : StorageDriver) (ctx : Ctx) (id : ResourceId) :
    Eff String :=
  (doAction nc ctx ⟨"GetPathByID", (resourceIdJson id).render⟩).mapRes
    fun r => r.map fun p => bodyString p.2

/-- AddGrant (lines 527-542): body with tags ref and g. -/
def AddGrant (nc : StorageDriver) (ctx : Ctx) (ref : Reference) (g : Grant) :
    Eff Unit :=
  (doAction nc ctx
    ⟨"AddGrant", (Json.obj [("ref", refJson ref), ("g", grantJson g)]).render⟩).void

/-- RemoveGrant (lines 545-560). -/
def RemoveGrant (nc : StorageDriver) (ctx : Ctx) (ref : Reference)
    (g : Grant) : Eff Unit :=
  (doAction nc ctx
    ⟨"RemoveGrant", (Json.obj [("ref", refJson ref), ("g", grantJson g)]).render⟩).void

/-- DenyGrant (lines 563-578): the g field holds a Grantee. -/
def DenyGrant (nc : StorageDriver) (ctx : Ctx) (ref : Reference)
    (g : Grantee) : Eff Unit :=
  (doAction nc ctx
    ⟨"DenyGrant", (Json.obj [("ref", refJson ref), ("g", granteeJson g)]).render⟩).void

/-- UpdateGrant (lines 581-596). -/
def UpdateGrant (nc : StorageDriver) (ctx : Ctx) (ref : Reference)
    (g : Grant) : Eff Unit :=
  (doAction nc ctx
    ⟨"UpdateGrant", (Json.obj [("ref", refJson ref), ("g", grantJson g)]).render⟩).void

/-- The grant value ListGrants marshals as its request body (lines
600-637): a fixed grantee and a fixed permission set, not derived from the
ref argument. -/
def listGrantsBodyGrant : Grant :=
  ⟨⟨"some-idp", "some-opaque-id", 1⟩,
   ⟨true, true, true, true, true, true, true, true,
    false, false, false, false, false, false, false, false, false, false⟩⟩

/-- ListGrants (lines 599-656): response deserialized into a slice of
Grant. -/
def ListGrants (nc : StorageDriver) (ctx : Ctx) (ref : Reference) :
    Eff (List Grant) :=
  (doAction nc ctx ⟨"ListGrants", (grantJson listGrantsBodyGrant).render⟩).mapRes
    fun r => r.bind fun p =>
      match unmarshalArr decodeGrant p.2 with
      | .error m => .err (.unmarshal m)
      | .ok l => .ok l

/-- GetQuota (lines 659-674): the response object's maxBytes and maxFiles
fields, read with type assertions that panic when absent or mistyped. -/
def GetQuota (nc : StorageDriver) (ctx : Ctx) : Eff (Nat × Nat) :=
  (doAction nc ctx ⟨"GetQuota", ""⟩).mapRes fun r => r.bind fun p =>
    match unmarshalObjMap p.2 with
    | .error m => .err (.unmarshal m)
    | .ok fs =>
      (assertNum (lookupField fs "maxBytes")).bind fun mb =>
        (assertNum (lookupField fs "maxFiles")).bind fun mf =>
          .ok (mb.toNat, mf.toNat)

/-- CreateReference (lines 677-690): body with tags path and url. -/
def CreateReference (nc : StorageDriver) (ctx : Ctx) (path : String)
    (targetURI : String) : Eff Unit :=
  (doAction nc ctx
    ⟨"CreateReference",
      (Json.obj [("path", .str path), ("url", .str targetURI)]).render⟩).void

/-- Shutdown (lines 693-699). -/
def Shutdown (nc : StorageDriver) (ctx : Ctx) : Eff Unit :=
  (doAction nc ctx ⟨"Shutdown", ""⟩).void

/-- SetArbitraryMetadata (lines 702-717): body with tags reference and
metadata. -/
def SetArbitraryMetadata (nc : StorageDriver) (ctx : Ctx) (ref : Reference)
    (md : List (String × String)) : Eff Unit :=
  (doAction nc ctx
    ⟨"SetArbitraryMetadata",
      (Json.obj [("reference", refJson ref), ("metadata", arbMdJson md)]).render⟩).void

/-- UnsetArbitraryMetadata (lines 720-735): body with tags reference and
keys. -/
def UnsetArbitraryMetadata (nc : StorageDriver) (ctx : Ctx) (ref : Reference)
    (keys : List String) : Eff Unit :=
  (doAction nc ctx
    ⟨"UnsetArbitraryMetadata",
      (Json.obj [("reference", refJson ref), ("keys", strListJson keys)]).render⟩).void

/-- The per-element construction of ListStorageSpaces (lines 757-789),
with the type assertions of the loop body (panic on an unexpected
shape), in source evaluation order. -/
def decodeStorageSpaceCrash (j : Json) : Res StorageSpace :=
  (assertObjJ j).bind fun fs =>
  (assertObj (lookupField fs "opaque")).bind fun vals =>
  (strPairsCrash vals).bind fun kvs =>
  (assertStr (lookupField fs "opaqueId")).bind fun oid =>
  (assertStr (lookupField fs "ownerIdp")).bind fun oIdp =>
  (assertStr (lookupField fs "ownerOpaqueId")).bind fun oOid =>
  (assertStr (lookupField fs "rootStorageId")).bind fun rSid =>
  (assertStr (lookupField fs "rootOpaqueId")).bind fun rOid =>
  (assertStr (lookupField fs "name")).bind fun name =>
  (assertNum (lookupField fs "quotaMaxBytes")).bind fun qb =>
  (assertNum (lookupField fs "quotaMaxFiles")).bind fun qf =>
  (assertStr (lookupField fs "spaceType")).bind fun st =>
  (assertNum (lookupField fs "mTimeSeconds")).bind fun mt =>
  .ok ⟨kvs, oid, oIdp, oOid, rSid, rOid, name, qb.toNat, qf.toNat, st, mt.toNat⟩

/-- ListStorageSpaces (lines 738-791): body with tag filters (the filters
are embedded as the JSON values their marshalling produces); the response
is decoded by the hand-written loop above. -/
def ListStorageSpaces (nc : StorageDriver) (ctx : Ctx)
    (filters : List Json) : Eff (List StorageSpace) :=
  (doAction nc ctx
      ⟨"ListStorageSpaces", (Json.obj [("filters", .arr filters)]).render⟩).mapRes
    fun r => r.bind fun p =>
      match unmarshalRawArr p.2 with
      | .error m => .err (.unmarshal m)
      | .ok xs => mapRes decodeStorageSpaceCrash xs

/-- CreateStorageSpace (lines 80-82): returns an error and contacts
nothing. -/
def CreateStorageSpace (nc : StorageDriver) (ctx : Ctx) : Eff Unit :=
  ⟨nc, [], .err (.unimplemented "unimplemented: CreateStorageSpace")⟩

end NCA

namespace NCB

/-- The body part_000's Move marshals (its lines 269-272): a
map with keys from and to; Go marshals map keys in sorted order, and
"from" sorts before "to". -/
def moveParams (oldRef newRef : Reference) : Json :=
  .obj [("from", refJson oldRef), ("to", refJson newRef)]

/-- Move (part_000 lines 268-278). -/
def Move (nc : StorageDriver) (ctx : Ctx) (oldRef newRef : Reference) :
    Eff Unit :=
  (doAction nc ctx ⟨"Move", (moveParams oldRef newRef).render⟩).void

/-- The hand-written response handling of part_000's GetMD (its lines
301-337), in source evaluation order: size, the optional metadata map,
then the composite literal's assertions on path, etag and mimetype.  The
literal fixes Type to RESOURCE_TYPE_FILE, Mtime to 1234567890 seconds, the
Path to the request's path, and a nil Owner. -/
def decodeGetMD (refPath : String) (fs : List (String × Json)) :
    Res ResourceInfo :=
  (assertNum (lookupField fs "size")).bind fun size =>
  (match lookupField fs "metadata" with
   | some (.obj mfs) => strPairsCrash mfs
   | _ => .ok []).bind fun md =>
  (assertStr (lookupField fs "path")).bind fun path =>
  (assertStr (lookupField fs "etag")).bind fun etag =>
  (assertStr (lookupField fs "mimetype")).bind fun mime =>
  .ok ⟨1, "fileid-" ++ queryEscape path, etag, mime, 1234567890, refPath,
       size.toNat, "", md⟩

/-- GetMD (part_000 lines 281-340): same request and 404 handling as the
other version, then the hand-written decoding above. -/
def GetMD (nc : StorageDriver) (ctx : Ctx) (ref : Reference)
    (mdKeys : List String) : Eff ResourceInfo :=
  (doAction nc ctx ⟨"GetMD", (refMdKeysParams ref mdKeys).render⟩).mapRes
    fun r => r.bind fun p =>
      if p.1 = 404 then .err (.notFound "")
      else
        match unmarshalObjMap p.2 with
        | .error m => .err (.unmarshal m)
        | .ok fs => decodeGetMD ref.path fs

/-- The per-element construction of part_000's ListFolder (its lines
372-393): assertions on path, etag and mimetype, and a literal that fixes
Type to RESOURCE_TYPE_CONTAINER, Mtime to 1234567890, Path to "/subdir",
Size to 0 and the owner to a fixed opaque id, regardless of the
response. -/
def decodeListFolderItem (j : Json) : Res ResourceInfo :=
  (assertObjJ j).bind fun fs =>
  (assertStr (lookupField fs "path")).bind fun path =>
  (assertStr (lookupField fs "etag")).bind fun etag =>
  (assertStr (lookupField fs "mimetype")).bind fun mime =>
  .ok ⟨2, "fileid-" ++ queryEscape path, etag, mime, 1234567890, "/subdir",
       0, "f7fbf8c8-139b-4376-b307-cf0a8c2d0d9c", []⟩

/-- ListFolder (part_000 lines 343-395). -/
def ListFolder (nc : StorageDriver) (ctx : Ctx) (ref : Reference)
    (mdKeys : List String) : Eff (List ResourceInfo) :=
  (doAction nc ctx ⟨"ListFolder", (refMdKeysParams ref mdKeys).render⟩).mapRes
    fun r => r.bind fun p =>
      if p.1 = 404 then .err (.notFound "")
      else
        match unmarshalRawArr p.2 with
        | .error m => .err (.unmarshal m)
        | .ok xs => mapRes decodeListFolderItem xs

/-- The per-element construction of part_000's ListRevisions (its lines
460-472): assertions on key, size, mtime and etag. -/
def decodeListRevisionsItem (j : Json) : Res FileVersion :=
  (assertObjJ j).bind fun fs =>
  (assertStr (lookupField fs "key")).bind fun key =>
  (assertNum (lookupField fs "size")).bind fun size =>
  (assertNum (lookupField fs "mtime")).bind fun mt =>
  (assertStr (lookupField fs "etag")).bind fun etag =>
  .ok ⟨key, size.toNat, mt.toNat, etag⟩

/-- ListRevisions (part_000 lines 443-474). -/
def ListRevisions (nc : StorageDriver) (ctx : Ctx) (ref : Reference) :
    Eff (List FileVersion) :=
  (doAction nc ctx ⟨"ListRevisions", (refJson ref).render⟩).mapRes
    fun r => r.bind fun p =>
      match unmarshalRawArr p.2 with
      | .error m => .err (.unmarshal m)
      | .ok xs => mapRes decodeListRevisionsItem xs

/-- GetQuota (part_000 lines 742-753): the error of the do call is
overwritten by the json.Unmarshal of the (then nil, hence malformed) body,
and the response object's total and used fields are read with type
assertions. -/
def GetQuota (nc : StorageDriver) (ctx : Ctx) : Eff (Nat × Nat) :=
  (doAction nc ctx ⟨"GetQuota", ""⟩).mapRes fun r =>
    match r with
    | .crash m => .crash m
    | .err _ => .err (.unmarshal invalidJsonMsg)
    | .ok p =>
      match unmarshalObjMap p.2 with
      | .error m => .err (.unmarshal m)
      | .ok fs =>
        (assertNum (lookupField fs "total")).bind fun t =>
          (assertNum (lookupField fs "used")).bind fun u =>
            .ok (t.toNat, u.toNat)

end NCB

/-- One call of a storage.FS method of the nextcloud.go driver, with its
arguments (file contents and target URIs are strings; the
ListStorageSpaces filters are carried as the JSON their marshalling
produces). -/
inductive FSOp where
  | getHome : FSOp
  | createHome : FSOp
  | createDir (ref : Reference) : FSOp
  | delete (ref : Reference) : FSOp
  | move (oldRef newRef : Reference) : FSOp
  | getMD (ref : Reference) (mdKeys : List String) : FSOp
  | listFolder (ref : Reference) (mdKeys : List String) : FSOp
  | initiateUpload (ref : Reference) (uploadLength : Int)
      (metadata : List (String × String)) : FSOp
  | upload (ref : Reference) (content : String) : FSOp
  | download (ref : Reference) : FSOp
  | listRevisions (ref : Reference) : FSOp
  | downloadRevision (ref : Reference) (key : String) : FSOp
  | restoreRevision (ref : Reference) (key : String) : FSOp
  | listRecycle (key path : String) : FSOp
  | restoreRecycleItem (key path : String) (restoreRef : Reference) : FSOp
  | purgeRecycleItem (key path : String) : FSOp
  | emptyRecycle : FSOp
  | getPathByID (id : ResourceId) : FSOp
  | addGrant (ref : Reference) (g : Grant) : FSOp
  | removeGrant (ref : Reference) (g : Grant) : FSOp
  | denyGrant (ref : Reference) (g : Grantee) : FSOp
  | updateGrant (ref : Reference) (g : Grant) : FSOp
  | listGrants (ref : Reference) : FSOp
  | getQuota : FSOp
  | createReference (path : String) (targetURI : String) : FSOp
  | shutdown : FSOp
  | setArbitraryMetadata (ref : Reference) (md : List (String × String)) : FSOp
  | unsetArbitraryMetadata (ref : Reference) (keys : List String) : FSOp
  | listStorageSpaces (filters : List Json) : FSOp
  | createStorageSpace : FSOp

/-- Dispatch one storage.FS call of nextcloud.go, forgetting the value of
its outcome (driver state, request trace and ok/error/panic status are
kept). -/
def runOp (nc : StorageDriver) (ctx : Ctx) : FSOp → Eff Unit
  | .getHome => (NCA.GetHome nc ctx).void
  | .createHome => NCA.CreateHome nc ctx
  | .createDir ref => NCA.CreateDir nc ctx ref
  | .delete ref => NCA.Delete nc ctx ref
  | .move oldRef newRef => NCA.Move nc ctx oldRef newRef
  | .getMD ref mdKeys => (NCA.GetMD nc ctx ref mdKeys).void
  | .listFolder ref mdKeys => (NCA.ListFolder nc ctx ref mdKeys).void
  | .initiateUpload ref l md => (NCA.InitiateUpload nc ctx ref l md).void
  | .upload ref content => NCA.Upload nc ctx ref content
  | .download ref => (NCA.Download nc ctx ref).void
  | .listRevisions ref => (NCA.ListRevisions nc ctx ref).void
  | .downloadRevision ref key => (NCA.DownloadRevision nc ctx ref key).void
  | .restoreRevision ref key => NCA.RestoreRevision nc ctx ref key
  | .listRecycle key path => (NCA.ListRecycle nc ctx key path).void
  | .restoreRecycleItem key path r => NCA.RestoreRecycleItem nc ctx key path r
  | .purgeRecycleItem key path => NCA.PurgeRecycleItem nc ctx key path
  | .emptyRecycle => NCA.EmptyRecycle nc ctx
  | .getPathByID id => (NCA.GetPathByID nc ctx id).void
  | .addGrant ref g => NCA.AddGrant nc ctx ref g
  | .removeGrant ref g => NCA.RemoveGrant nc ctx ref g
  | .denyGrant ref g => NCA.DenyGrant nc ctx ref g
  | .updateGrant ref g => NCA.UpdateGrant nc ctx ref g
  | .listGrants ref => (NCA.ListGrants nc ctx ref).void
  | .getQuota => (NCA.GetQuota nc ctx).void
  | .createReference path uri => NCA.CreateReference nc ctx path uri
  | .shutdown => NCA.Shutdown nc ctx
  | .setArbitraryMetadata ref md => NCA.SetArbitraryMetadata nc ctx ref md
  | .unsetArbitraryMetadata ref keys => NCA.UnsetArbitraryMetadata nc ctx ref keys
  | .listStorageSpaces fs => (NCA.ListStorageSpaces nc ctx fs).void
  | .createStorageSpace => NCA.CreateStorageSpace nc ctx

/-- The operations whose request goes through the `do` helper: every
storage.FS method except Upload, Download and DownloadRevision (which use
the dedicated PUT/GET helpers) and CreateStorageSpace (which issues
nothing). -/
def usesDo : FSOp → Bool
  | .upload _ _ => false
  | .download _ => false
  | .downloadRevision _ _ => false
  | .createStorageSpace => false
  | _ => true

/-- The `do`-helper operations that deserialize their response body with
json.Unmarshal (the remaining `do`-helper operations return the raw body
or discard it, so they have no deserialization failure to propagate). -/
def deserializes : FSOp → Bool
  | .getMD _ _ => true
  | .listFolder _ _ => true
  | .initiateUpload _ _ _ => true
  | .listRevisions _ => true
  | .listRecycle _ _ => true
  | .listGrants _ => true
  | .getQuota => true
  | .listStorageSpaces _ => true
  | _ => false

/-- True exactly when the outcome is a returned error value (not a value
and not a panic). -/
def Res.isErr : Res α → Bool
  | .err _ => true
  | _ => false

/-! Concrete fixtures used to evaluate the embedded operations. -/

def epW : String := "http://nc/apps/sciencemesh/"

def alice : User := ⟨"alice"⟩

def aliceCtx : Ctx := ⟨some alice⟩

def noUserCtx : Ctx := ⟨none⟩

/-- A client that answers every request with the given response. -/
def okClient (resp : HttpResponse) : Client := fun _ => .ok resp

/-- A client whose round-trip always fails with the given message. -/
def failClient (m : String) : Client := fun _ => .error m

def refA : Reference := ⟨none, "/a"⟩

def refB : Reference := ⟨none, "/b"⟩

/-- A backend answer for a folder listing: one entry with path /foo. -/
def c4Item : Json :=
  .obj [("path", .str "/foo"), ("etag", .str "e1"), ("mimetype", .str "text/plain")]

def c4Resp : HttpResponse := ⟨200, .ok (.json (.arr [c4Item]))⟩

def c4Nc : StorageDriver := ⟨epW, okClient c4Resp⟩

/-- What part_000's ListFolder returns for c4Item: path, mtime, owner,
size and type do not come from the response. -/
def riHard : ResourceInfo :=
  ⟨2, "fileid-%2Ffoo", "e1", "text/plain", 1234567890, "/subdir", 0,
   "f7fbf8c8-139b-4376-b307-cf0a8c2d0d9c", []⟩

/-- The deserialization of c4Item into a ResourceInfo: its path is the
response's path /foo. -/
def riResp : ResourceInfo := ⟨0, "", "e1", "", 0, "/foo", 0, "", []⟩

def resp404 : HttpResponse := ⟨404, .ok (.json .null)⟩

def nc404 : StorageDriver := ⟨epW, okClient resp404⟩

def ncFail : StorageDriver := ⟨epW, failClient "connection refused"⟩

def quotaResp : HttpResponse :=
  ⟨200, .ok (.json (.obj [("maxBytes", .num 10), ("maxFiles", .num 5),
    ("total", .num 3), ("used", .num 1)]))⟩

def ncQuota : StorageDriver := ⟨epW, okClient quotaResp⟩

def malformedResp : HttpResponse := ⟨200, .ok (.malformed "not json")⟩

def ncMalformed : StorageDriver := ⟨epW, okClient malformedResp⟩

/-! Helper lemmas about outcomes, effects and the request helpers. -/

@[simp] theorem Res.map_ok (f : α → β) (a : α) :
    Res.map f (.ok a) = .ok (f a) := rfl

@[simp] theorem Res.map_err (f : α → β) (e : Err) :
    Res.map f (.err e) = (.err e : Res β) := rfl

@[simp] theorem Res.map_crash (f : α → β) (m : String) :
    Res.map f (.crash m) = (.crash m : Res β) := rfl

@[simp] theorem Res.bind_ok (a : α) (f : α → Res β) :
    Res.bind (.ok a) f = f a := rfl

@[simp] theorem Res.bind_err (e : Err) (f : α → Res β) :
    Res.bind (.err e) f = .err e := rfl

@[simp] theorem Res.bind_crash (m : String) (f : α → Res β) :
    Res.bind (.crash m) f = .crash m := rfl

@[simp] theorem Res.void_ok (a : α) : Res.void (.ok a) = .ok () := rfl

@[simp] theorem Res.void_err (e : Err) :
    Res.void (.err e : Res α) = .err e := rfl

@[simp] theorem Res.void_crash (m : String) :
    Res.void (.crash m : Res α) = .crash m := rfl

@[simp] theorem Eff.mapRes_driver (e : Eff α) (f : Res α → Res β) :
    (e.mapRes f).driver = e.driver := rfl

@[simp] theorem Eff.mapRes_trace (e : Eff α) (f : Res α → Res β) :
    (e.mapRes f).trace = e.trace := rfl

@[simp] theorem Eff.mapRes_result (e : Eff α) (f : Res α → Res β) :
    (e.mapRes f).result = f e.result := rfl

@[simp] theorem Eff.void_driver (e : Eff α) : e.void.driver = e.driver := rfl

@[simp] theorem Eff.void_trace (e : Eff α) : e.void.trace = e.trace := rfl

@[simp] theorem Eff.void_result (e : Eff α) :
    e.void.result = Res.void e.result := rfl

@[simp] theorem doAction_driver (nc : StorageDriver) (ctx : Ctx) (a : Action) :
    (doAction nc ctx a).driver = nc := by
  unfold doAction
  cases ctx.user <;> rfl

theorem doAction_none {nc : StorageDriver} {ctx : Ctx} (a : Action)
    (h : ctx.user = none) :
    doAction nc ctx a = ⟨nc, [], .err (.userRequired userRequiredMsg)⟩ := by
  unfold doAction
  rw [h]

theorem doAction_trace_some {nc : StorageDriver} {ctx : Ctx} {u : User}
    (a : Action) (h : ctx.user = some u) :
    (doAction nc ctx a).trace = [mkDoReq nc u a] := by
  unfold doAction
  rw [h]

theorem doAction_trace_len (nc : StorageDriver) (ctx : Ctx) (a : Action) :
    (doAction nc ctx a).trace.length ≤ 1 := by
  cases h : ctx.user with
  | none => rw [doAction_none a h]; simp
  | some u => rw [doAction_trace_some a h]; simp

theorem doAction_ok {nc : StorageDriver} {ctx : Ctx} {u : User} {a : Action}
    {resp : HttpResponse} {bd : BodyData} (hu : ctx.user = some u)
    (hc : nc.client (mkDoReq nc u a) = .ok resp) (hb : resp.body = .ok bd) :
    (doAction nc ctx a).result = .ok (resp.statusCode, bd) := by
  unfold doAction
  rw [hu]
  show doResult (nc.client (mkDoReq nc u a)) = _
  rw [hc]
  simp [doResult, hb]

theorem doAction_transport {nc : StorageDriver} {ctx : Ctx} {u : User}
    {a : Action} {m : String} (hu : ctx.user = some u)
    (hc : nc.client (mkDoReq nc u a) = .error m) :
    (doAction nc ctx a).result = .err (.transport m) := by
  unfold doAction
  rw [hu]
  show doResult (nc.client (mkDoReq nc u a)) = _
  rw [hc]
  rfl

theorem doAction_bodyRead {nc : StorageDriver} {ctx : Ctx} {u : User}
    {a : Action} {resp : HttpResponse} {m : String} (hu : ctx.user = some u)
    (hc : nc.client (mkDoReq nc u a) = .ok resp)
    (hb : resp.body = .error m) :
    (doAction nc ctx a).result = .err (.bodyRead m) := by
  unfold doAction
  rw [hu]
  show doResult (nc.client (mkDoReq nc u a)) = _
  rw [hc]
  simp [doResult, hb]

@[simp] theorem doUpload_driver (nc : StorageDriver) (ctx : Ctx)
    (filePath content : String) :
    (doUpload nc ctx filePath content).driver = nc := by
  unfold doUpload
  cases ctx.user <;> rfl

theorem doUpload_trace_len (nc : StorageDriver) (ctx : Ctx)
    (filePath content : String) :
    (doUpload nc ctx filePath content).trace.length ≤ 1 := by
  unfold doUpload
  cases ctx.user <;> simp

@[simp] theorem doDownload_driver (nc : StorageDriver) (ctx : Ctx)
    (filePath : String) :
    (doDownload nc ctx filePath).driver = nc := by
  unfold doDownload
  cases ctx.user <;> rfl

theorem doDownload_trace_len (nc : StorageDriver) (ctx : Ctx)
    (filePath : String) :
    (doDownload nc ctx filePath).trace.length ≤ 1 := by
  unfold doDownload
  cases ctx.user <;> simp

@[simp] theorem doDownloadRevision_driver (nc : StorageDriver) (ctx : Ctx)
    (filePath key : String) :
    (doDownloadRevision nc ctx filePath key).driver = nc := by
  unfold doDownloadRevision
  cases ctx.user <;> rfl

theorem doDownloadRevision_trace_len (nc : StorageDriver) (ctx : Ctx)
    (filePath key : String) :
    (doDownloadRevision nc ctx filePath key).trace.length ≤ 1 := by
  unfold doDownloadRevision
  cases ctx.user <;> simp

theorem doAction_trace_len_some {nc : StorageDriver} {ctx : Ctx} {u : User}
    (a : Action) (h : ctx.user = some u) :
    (doAction nc ctx a).trace.length = 1 := by
  rw [doAction_trace_some a h]
  rfl

theorem doUpload_trace_some {nc : StorageDriver} {ctx : Ctx} {u : User}
    (filePath content : String) (h : ctx.user = some u) :
    (doUpload nc ctx filePath content).trace =
      [⟨"PUT", nc.endPoint ++ "~" ++ u.username ++ "/api/Upload/" ++ filePath,
        some "text/plain", content⟩] := by
  unfold doUpload
  rw [h]

theorem doDownload_trace_some {nc : StorageDriver} {ctx : Ctx} {u : User}
    (filePath : String) (h : ctx.user = some u) :
    (doDownload nc ctx filePath).trace =
      [⟨"GET", nc.endPoint ++ "~" ++ u.username ++ "/api/Download/" ++ filePath,
        none, ""⟩] := by
  unfold doDownload
  rw [h]

theorem doDownloadRevision_trace_some {nc : StorageDriver} {ctx : Ctx}
    {u : User} (filePath key : String) (h : ctx.user = some u) :
    (doDownloadRevision nc ctx filePath key).trace =
      [⟨"GET", nc.endPoint ++ "~" ++ u.username ++ "/api/DownloadRevision/" ++
          queryEscape key ++ "/" ++ filePath, none, ""⟩] := by
  unfold doDownloadRevision
  rw [h]

theorem doUpload_none {nc : StorageDriver} {ctx : Ctx}
    (filePath content : String) (h : ctx.user = none) :
    doUpload nc ctx filePath content =
      ⟨nc, [], .err (.userRequired userRequiredMsg)⟩ := by
  unfold doUpload
  rw [h]

theorem doDownload_none {nc : StorageDriver} {ctx : Ctx} (filePath : String)
    (h : ctx.user = none) :
    doDownload nc ctx filePath =
      ⟨nc, [], .err (.userRequired userRequiredMsg)⟩ := by
  unfold doDownload
  rw [h]

theorem doDownloadRevision_none {nc : StorageDriver} {ctx : Ctx}
    (filePath key : String) (h : ctx.user = none) :
    doDownloadRevision nc ctx filePath key =
      ⟨nc, [], .err (.userRequired userRequiredMsg)⟩ := by
  unfold doDownloadRevision
  rw [h]

theorem doAction_url_prefix {nc : StorageDriver} {ctx : Ctx} {a : Action}
    {req : HttpRequest} (h : req ∈ (doAction nc ctx a).trace) :
    ∃ rest, req.url = nc.endPoint ++ rest := by
  cases hu : ctx.user with
  | none => rw [doAction_none a hu] at h; simp at h
  | some u =>
    rw [doAction_trace_some a hu] at h
    simp at h
    subst h
    refine ⟨"~" ++ u.username ++ ("/api/" ++ a.verb), ?_⟩
    show nc.endPoint ++ "~" ++ u.username ++ "/api/" ++ a.verb = _
    simp [String.append_assoc]

theorem doUpload_url_prefix {nc : StorageDriver} {ctx : Ctx}
    {filePath content : String} {req : HttpRequest}
    (h : req ∈ (doUpload nc ctx filePath content).trace) :
    ∃ rest, req.url = nc.endPoint ++ rest := by
  cases hu : ctx.user with
  | none => rw [doUpload_none filePath content hu] at h; simp at h
  | some u =>
    rw [doUpload_trace_some filePath content hu] at h
    simp at h
    subst h
    refine ⟨"~" ++ u.username ++ ("/api/Upload/" ++ filePath), ?_⟩
    show nc.endPoint ++ "~" ++ u.username ++ "/api/Upload/" ++ filePath = _
    simp [String.append_assoc]

theorem doDownload_url_prefix {nc : StorageDriver} {ctx : Ctx}
    {filePath : String} {req : HttpRequest}
    (h : req ∈ (doDownload nc ctx filePath).trace) :
    ∃ rest, req.url = nc.endPoint ++ rest := by
  cases hu : ctx.user with
  | none => rw [doDownload_none filePath hu] at h; simp at h
  | some u =>
    rw [doDownload_trace_some filePath hu] at h
    simp at h
    subst h
    refine ⟨"~" ++ u.username ++ ("/api/Download/" ++ filePath), ?_⟩
    show nc.endPoint ++ "~" ++ u.username ++ "/api/Download/" ++ filePath = _
    simp [String.append_assoc]

theorem doDownloadRevision_url_prefix {nc : StorageDriver} {ctx : Ctx}
    {filePath key : String} {req : HttpRequest}
    (h : req ∈ (doDownloadRevision nc ctx filePath key).trace) :
    ∃ rest, req.url = nc.endPoint ++ rest := by
  cases hu : ctx.user with
  | none => rw [doDownloadRevision_none filePath key hu] at h; simp at h
  | some u =>
    rw [doDownloadRevision_trace_some filePath key hu] at h
    simp at h
    subst h
    refine ⟨"~" ++ u.username ++ ("/api/DownloadRevision/" ++
      (queryEscape key ++ ("/" ++ filePath))), ?_⟩
    show nc.endPoint ++ "~" ++ u.username ++ "/api/DownloadRevision/" ++
      queryEscape key ++ "/" ++ filePath = _
    simp [String.append_assoc]

theorem mapExcept_ok_length {f : α → Except ε β} {xs : List α} {l : List β}
    (h : mapExcept f xs = .ok l) : l.length = xs.length := by
  induction xs generalizing l with
  | nil =>
    unfold mapExcept at h
    cases h
    rfl
  | cons a as ih =>
    unfold mapExcept at h
    cases hfa : f a with
    | error e => rw [hfa] at h; cases h
    | ok b =>
      rw [hfa] at h
      cases hrest : mapExcept f as with
      | error e => rw [hrest] at h; cases h
      | ok bs =>
        rw [hrest] at h
        cases h
        simp [ih hrest]

theorem mapExcept_ok_get {f : α → Except ε β} {xs : List α} {l : List β}
    (h : mapExcept f xs = .ok l) :
    ∀ i (hi : i < xs.length) (hl : i < l.length),
      f (xs.get ⟨i, hi⟩) = .ok (l.get ⟨i, hl⟩) := by
  induction xs generalizing l with
  | nil =>
    intro i hi
    exact absurd hi (by simp)
  | cons a as ih =>
    unfold mapExcept at h
    cases hfa : f a with
    | error e => rw [hfa] at h; cases h
    | ok b =>
      rw [hfa] at h
      cases hrest : mapExcept f as with
      | error e => rw [hrest] at h; cases h
      | ok bs =>
        rw [hrest] at h
        cases h
        intro i hi hl
        cases i with
        | zero => simpa using hfa
        | succ n => exact ih hrest n (by simpa using hi) (by simpa using hl)

theorem Res.bind_no_err {r : Res α} {f : α → Res β}
    (hr : ∀ e, r ≠ .err e) (hf : ∀ a e, f a ≠ .err e) :
    ∀ e, r.bind f ≠ .err e := by
  intro e
  cases hrr : r with
  | ok a => rw [Res.bind_ok]; exact hf a e
  | err e' => exact absurd hrr (hr e')
  | crash m => rw [Res.bind_crash]; exact fun h => Res.noConfusion h

theorem assertStr_no_err (o : Option Json) : ∀ e, assertStr o ≠ .err e := by
  intro e
  cases o with
  | none => exact fun h => Res.noConfusion h
  | some j => cases j <;> exact fun h => Res.noConfusion h

theorem assertNum_no_err (o : Option Json) : ∀ e, assertNum o ≠ .err e := by
  intro e
  cases o with
  | none => exact fun h => Res.noConfusion h
  | some j => cases j <;> exact fun h => Res.noConfusion h

theorem assertObjJ_no_err (j : Json) : ∀ e, assertObjJ j ≠ .err e := by
  intro e
  cases j <;> exact fun h => Res.noConfusion h

theorem strPairsCrash_no_err (l : List (String × Json)) :
    ∀ e, strPairsCrash l ≠ .err e := by
  induction l with
  | nil => exact fun e h => Res.noConfusion h
  | cons kv rest ih =>
    obtain ⟨k, v⟩ := kv
    cases v with
    | str s =>
      show ∀ e, (strPairsCrash rest).bind _ ≠ .err e
      exact Res.bind_no_err ih (fun l' e h => Res.noConfusion h)
    | null => exact fun e h => Res.noConfusion h
    | bool b => exact fun e h => Res.noConfusion h
    | num n => exact fun e h => Res.noConfusion h
    | arr xs => exact fun e h => Res.noConfusion h
    | obj fs => exact fun e h => Res.noConfusion h

theorem decodeGetMD_no_err (rp : String) (fs : List (String × Json)) :
    ∀ e, NCB.decodeGetMD rp fs ≠ .err e := by
  unfold NCB.decodeGetMD
  refine Res.bind_no_err (assertNum_no_err _) fun size => ?_
  refine Res.bind_no_err ?_ fun md => ?_
  · cases hm : lookupField fs "metadata" with
    | none => exact fun e h => Res.noConfusion h
    | some j =>
      cases j <;>
        first
          | exact strPairsCrash_no_err _
          | exact fun e h => Res.noConfusion h
  · refine Res.bind_no_err (assertStr_no_err _) fun path => ?_
    refine Res.bind_no_err (assertStr_no_err _) fun etag => ?_
    refine Res.bind_no_err (assertStr_no_err _) fun mime => ?_
    exact fun e h => Res.noConfusion h

theorem decodeListFolderItem_no_err (j : Json) :
    ∀ e, NCB.decodeListFolderItem j ≠ .err e := by
  unfold NCB.decodeListFolderItem
  refine Res.bind_no_err (assertObjJ_no_err _) fun fs => ?_
  refine Res.bind_no_err (assertStr_no_err _) fun path => ?_
  refine Res.bind_no_err (assertStr_no_err _) fun etag => ?_
  refine Res.bind_no_err (assertStr_no_err _) fun mime => ?_
  exact fun e h => Res.noConfusion h

theorem mapRes_no_err {f : α → Res β} (hf : ∀ a e, f a ≠ .err e)
    (l : List α) : ∀ e, mapRes f l ≠ .err e := by
  induction l with
  | nil => exact fun e h => Res.noConfusion h
  | cons a rest ih =>
    show ∀ e, (f a).bind _ ≠ .err e
    exact Res.bind_no_err (hf a) fun b =>
      Res.bind_no_err ih fun bs e h => Res.noConfusion h

/-- C1: for every Action executed through the `do` helper with a user in
the context, exactly one HTTP POST is issued, its URL is the configured
endpoint followed by a tilde, the context user's username, "/api/" and the
action's verb, its Content-Type header is application/json, and its body
is exactly the action's argument string. -/
theorem claim_C1_do_single_post (nc : StorageDriver) (ctx : Ctx) (u : User)
    (a : Action) (h : ctx.user = some u) :
    (doAction nc ctx a).trace =
      [⟨"POST", nc.endPoint ++ "~" ++ u.username ++ "/api/" ++ a.verb,
        some "application/json", a.argS⟩] :=
  doAction_trace_some a h

theorem claim_C1_do_single_post_witness :
    (doAction c4Nc aliceCtx ⟨"GetHome", ""⟩).trace =
      [⟨"POST", "http://nc/apps/sciencemesh/~alice/api/GetHome",
        some "application/json", ""⟩] := by
  rw [claim_C1_do_single_post c4Nc aliceCtx alice ⟨"GetHome", ""⟩ rfl]
  decide

/-- C6: no retry logic exists; one call of any storage.FS operation never
issues more than one HTTP request, whether or not it succeeds. -/
theorem claim_C6_no_retry (nc : StorageDriver) (ctx : Ctx) (op : FSOp) :
    (runOp nc ctx op).trace.length ≤ 1 := by
  cases hu : ctx.user <;> cases op <;>
    simp [runOp, NCA.GetHome, NCA.CreateHome, NCA.CreateDir, NCA.Delete,
      NCA.Move, NCA.GetMD, NCA.ListFolder, NCA.InitiateUpload, NCA.Upload,
      NCA.Download, NCA.ListRevisions, NCA.DownloadRevision,
      NCA.RestoreRevision, NCA.ListRecycle, NCA.RestoreRecycleItem,
      NCA.PurgeRecycleItem, NCA.EmptyRecycle, NCA.GetPathByID, NCA.AddGrant,
      NCA.RemoveGrant, NCA.DenyGrant, NCA.UpdateGrant, NCA.ListGrants,
      NCA.GetQuota, NCA.CreateReference, NCA.Shutdown,
      NCA.SetArbitraryMetadata, NCA.UnsetArbitraryMetadata,
      NCA.ListStorageSpaces, NCA.CreateStorageSpace, Eff.void,
      doAction, doUpload, doDownload, doDownloadRevision, hu]

/-- C7: the adapter holds no mutable state; after any storage.FS call the
driver's endPoint and client fields are unchanged. -/
theorem claim_C7_no_state_mutation (nc : StorageDriver) (ctx : Ctx)
    (op : FSOp) :
    ((runOp nc ctx op).driver).endPoint = nc.endPoint ∧
      ((runOp nc ctx op).driver).client = nc.client := by
  have h : (runOp nc ctx op).driver = nc := by
    cases op <;>
      simp [runOp, NCA.GetHome, NCA.CreateHome, NCA.CreateDir, NCA.Delete,
        NCA.Move, NCA.GetMD, NCA.ListFolder, NCA.InitiateUpload, NCA.Upload,
        NCA.Download, NCA.ListRevisions, NCA.DownloadRevision,
        NCA.RestoreRevision, NCA.ListRecycle, NCA.RestoreRecycleItem,
        NCA.PurgeRecycleItem, NCA.EmptyRecycle, NCA.GetPathByID,
        NCA.AddGrant, NCA.RemoveGrant, NCA.DenyGrant, NCA.UpdateGrant,
        NCA.ListGrants, NCA.GetQuota, NCA.CreateReference, NCA.Shutdown,
        NCA.SetArbitraryMetadata, NCA.UnsetArbitraryMetadata,
        NCA.ListStorageSpaces, NCA.CreateStorageSpace, Eff.void]
  rw [h]
  exact ⟨rfl, rfl⟩

/-- C3 fails as stated: CreateStorageSpace is exposed on the driver but
issues no HTTP request at all, even with a user in the context; it returns
an unimplemented error without touching the backend. -/
theorem claim_C3_counterexample :
    aliceCtx.user = some alice ∧
      (runOp c4Nc aliceCtx FSOp.createStorageSpace).trace = [] ∧
      (runOp c4Nc aliceCtx FSOp.createStorageSpace).result =
        .err (.unimplemented "unimplemented: CreateStorageSpace") :=
  ⟨rfl, rfl, rfl⟩

/-- C3 (amended): every storage.FS operation except CreateStorageSpace,
called with a user in the context, issues exactly one HTTP request against
the backing service. -/
theorem claim_C3_amended (nc : StorageDriver) (ctx : Ctx) (u : User)
    (op : FSOp) (hu : ctx.user = some u)
    (hop : op ≠ FSOp.createStorageSpace) :
    (runOp nc ctx op).trace.length = 1 := by
  cases op <;>
    first
      | exact absurd rfl hop
      | simp [runOp, NCA.GetHome, NCA.CreateHome, NCA.CreateDir, NCA.Delete,
          NCA.Move, NCA.GetMD, NCA.ListFolder, NCA.InitiateUpload,
          NCA.Upload, NCA.Download, NCA.ListRevisions, NCA.DownloadRevision,
          NCA.RestoreRevision, NCA.ListRecycle, NCA.RestoreRecycleItem,
          NCA.PurgeRecycleItem, NCA.EmptyRecycle, NCA.GetPathByID,
          NCA.AddGrant, NCA.RemoveGrant, NCA.DenyGrant, NCA.UpdateGrant,
          NCA.ListGrants, NCA.GetQuota, NCA.CreateReference, NCA.Shutdown,
          NCA.SetArbitraryMetadata, NCA.UnsetArbitraryMetadata,
          NCA.ListStorageSpaces, Eff.void, doAction, doUpload, doDownload,
          doDownloadRevision, hu]

theorem claim_C3_amended_witness :
    (runOp c4Nc aliceCtx FSOp.getHome).trace.length = 1 :=
  claim_C3_amended c4Nc aliceCtx alice FSOp.getHome rfl
    (fun h => FSOp.noConfusion h)

/-- C8: every HTTP request issued by any operation has a URL that begins
with the endPoint the driver was constructed with. -/
theorem claim_C8_endpoint_prefix (nc : StorageDriver) (ctx : Ctx)
    (op : FSOp) (req : HttpRequest) (h : req ∈ (runOp nc ctx op).trace) :
    ∃ rest, req.url = nc.endPoint ++ rest := by
  cases op <;>
    simp only [runOp, NCA.GetHome, NCA.CreateHome, NCA.CreateDir, NCA.Delete,
      NCA.Move, NCA.GetMD, NCA.ListFolder, NCA.InitiateUpload, NCA.Upload,
      NCA.Download, NCA.ListRevisions, NCA.DownloadRevision,
      NCA.RestoreRevision, NCA.ListRecycle, NCA.RestoreRecycleItem,
      NCA.PurgeRecycleItem, NCA.EmptyRecycle, NCA.GetPathByID, NCA.AddGrant,
      NCA.RemoveGrant, NCA.DenyGrant, NCA.UpdateGrant, NCA.ListGrants,
      NCA.GetQuota, NCA.CreateReference, NCA.Shutdown,
      NCA.SetArbitraryMetadata, NCA.UnsetArbitraryMetadata,
      NCA.ListStorageSpaces, NCA.CreateStorageSpace, Eff.void_trace,
      Eff.mapRes_trace] at h <;>
    first
      | exact doAction_url_prefix h
      | exact doUpload_url_prefix h
      | exact doDownload_url_prefix h
      | exact doDownloadRevision_url_prefix h
      | simp at h

theorem claim_C8_endpoint_prefix_witness :
    ∃ rest,
      (HttpRequest.url ⟨"POST", "http://nc/apps/sciencemesh/~alice/api/GetHome",
        some "application/json", ""⟩) = c4Nc.endPoint ++ rest :=
  claim_C8_endpoint_prefix c4Nc aliceCtx FSOp.getHome _ (by decide)

/-- C10: every operation that goes through the `do` helper, called with no
user in the context, returns a non-nil error and issues no HTTP request at
all. -/
theorem claim_C10_no_user_no_request (nc : StorageDriver) (ctx : Ctx)
    (op : FSOp) (hdo : usesDo op = true) (hu : ctx.user = none) :
    (runOp nc ctx op).trace = [] ∧
      (runOp nc ctx op).result = .err (.userRequired userRequiredMsg) := by
  cases op
  case upload ref content => exact absurd hdo (by simp [usesDo])
  case download ref => exact absurd hdo (by simp [usesDo])
  case downloadRevision ref key => exact absurd hdo (by simp [usesDo])
  case createStorageSpace => exact absurd hdo (by simp [usesDo])
  all_goals
    constructor <;>
      simp [runOp, NCA.GetHome, NCA.CreateHome, NCA.CreateDir,
        NCA.Delete, NCA.Move, NCA.GetMD, NCA.ListFolder,
        NCA.InitiateUpload, NCA.ListRevisions, NCA.RestoreRevision,
        NCA.ListRecycle, NCA.RestoreRecycleItem, NCA.PurgeRecycleItem,
        NCA.EmptyRecycle, NCA.GetPathByID, NCA.AddGrant, NCA.RemoveGrant,
        NCA.DenyGrant, NCA.UpdateGrant, NCA.ListGrants, NCA.GetQuota,
        NCA.CreateReference, NCA.Shutdown, NCA.SetArbitraryMetadata,
        NCA.UnsetArbitraryMetadata, NCA.ListStorageSpaces, Eff.void,
        doAction, hu]

theorem claim_C10_no_user_no_request_witness :
    (runOp c4Nc noUserCtx FSOp.getHome).trace = [] ∧
      (runOp c4Nc noUserCtx FSOp.getHome).result =
        .err (.userRequired userRequiredMsg) :=
  claim_C10_no_user_no_request c4Nc noUserCtx FSOp.getHome rfl rfl

/-- C2 fails as stated: when the HTTP round-trip fails, Upload does not
return the failure to its caller — doUpload panics on a transport error
(panic(err), nextcloud.go line 139), so the call crashes instead of
returning a non-nil error. -/
theorem claim_C2_counterexample :
    (NCA.Upload ncFail aliceCtx refA "data").result =
        .crash "connection refused" ∧
      ((NCA.Upload ncFail aliceCtx refA "data").result).isErr = false :=
  ⟨rfl, rfl⟩

/-- C2 (amended): every operation whose request goes through the `do`
helper returns transport failures as error values, and every
deserializing `do`-helper operation (GetMD, ListFolder, InitiateUpload,
ListRevisions, ListRecycle, ListGrants, GetQuota, ListStorageSpaces)
returns a top-level JSON deserialization failure as an error value;
Upload, Download and DownloadRevision, however, panic when the HTTP
round-trip fails instead of returning an error. -/
theorem claim_C2_amended (nc : StorageDriver) (ctx : Ctx) (u : User)
    (m : String) (hu : ctx.user = some u) :
    (∀ op, usesDo op = true → (∀ req, nc.client req = .error m) →
      (runOp nc ctx op).result = .err (.transport m)) ∧
    (∀ op resp raw, deserializes op = true →
      (∀ req, nc.client req = .ok resp) →
      resp.body = .ok (.malformed raw) → resp.statusCode ≠ 404 →
      (runOp nc ctx op).result = .err (.unmarshal invalidJsonMsg)) ∧
    (∀ ref content key, (∀ req, nc.client req = .error m) →
      (NCA.Upload nc ctx ref content).result = .crash m ∧
      (NCA.Download nc ctx ref).result = .crash m ∧
      (NCA.DownloadRevision nc ctx ref key).result = .crash m) := by
  refine ⟨?_, ?_, ?_⟩
  · intro op hdo hcl
    cases op
    case upload ref content => exact absurd hdo (by simp [usesDo])
    case download ref => exact absurd hdo (by simp [usesDo])
    case downloadRevision ref key => exact absurd hdo (by simp [usesDo])
    case createStorageSpace => exact absurd hdo (by simp [usesDo])
    all_goals
      simp [runOp, NCA.GetHome, NCA.CreateHome, NCA.CreateDir, NCA.Delete,
        NCA.Move, NCA.GetMD, NCA.ListFolder, NCA.InitiateUpload,
        NCA.ListRevisions, NCA.RestoreRevision, NCA.ListRecycle,
        NCA.RestoreRecycleItem, NCA.PurgeRecycleItem, NCA.EmptyRecycle,
        NCA.GetPathByID, NCA.AddGrant, NCA.RemoveGrant, NCA.DenyGrant,
        NCA.UpdateGrant, NCA.ListGrants, NCA.GetQuota, NCA.CreateReference,
        NCA.Shutdown, NCA.SetArbitraryMetadata, NCA.UnsetArbitraryMetadata,
        NCA.ListStorageSpaces, Eff.void, doAction, doResult, hu, hcl]
  · intro op resp raw hdes hcl hb hst
    have hd : ∀ a, (doAction nc ctx a).result =
        .ok (resp.statusCode, .malformed raw) :=
      fun a => doAction_ok hu (hcl _) hb
    cases op
    case getMD ref mdKeys =>
      simp [runOp, NCA.GetMD, Eff.void, hd, hst, unmarshalResourceInfo]
    case listFolder ref mdKeys =>
      simp [runOp, NCA.ListFolder, Eff.void, hd, hst, unmarshalArr]
    case initiateUpload ref l md =>
      simp [runOp, NCA.InitiateUpload, Eff.void, hd, unmarshalStrMap,
        unmarshalObjMap]
    case listRevisions ref =>
      simp [runOp, NCA.ListRevisions, Eff.void, hd, unmarshalArr]
    case listRecycle key path =>
      simp [runOp, NCA.ListRecycle, Eff.void, hd, unmarshalArr]
    case listGrants ref =>
      simp [runOp, NCA.ListGrants, Eff.void, hd, unmarshalArr]
    case getQuota =>
      simp [runOp, NCA.GetQuota, Eff.void, hd, unmarshalObjMap]
    case listStorageSpaces fs =>
      simp [runOp, NCA.ListStorageSpaces, Eff.void, hd, unmarshalRawArr]
    all_goals exact absurd hdes (by simp [deserializes])
  · intro ref content key hcl
    refine ⟨?_, ?_, ?_⟩
    · simp [NCA.Upload, doUpload, hu, hcl, uploadResult]
    · simp [NCA.Download, doDownload, hu, hcl, downloadResult]
    · simp [NCA.DownloadRevision, doDownloadRevision, hu, hcl,
        downloadResult]

theorem claim_C2_amended_witness :
    (runOp ncFail aliceCtx FSOp.getHome).result =
        .err (.transport "connection refused") ∧
      (runOp ncMalformed aliceCtx (FSOp.listFolder refA [])).result =
        .err (.unmarshal invalidJsonMsg) ∧
      (runOp ncMalformed aliceCtx FSOp.getQuota).result =
        .err (.unmarshal invalidJsonMsg) ∧
      (NCA.Upload ncFail aliceCtx refA "data").result =
        .crash "connection refused" ∧
      (NCA.DownloadRevision ncFail aliceCtx refA "v1").result =
        .crash "connection refused" := by
  have h1 := (claim_C2_amended ncFail aliceCtx alice "connection refused"
    rfl).1 FSOp.getHome rfl (fun req => rfl)
  have h2 := (claim_C2_amended ncMalformed aliceCtx alice "unused"
    rfl).2.1 (FSOp.listFolder refA []) malformedResp "not json" rfl
    (fun req => rfl) rfl (by decide)
  have h2q := (claim_C2_amended ncMalformed aliceCtx alice "unused"
    rfl).2.1 FSOp.getQuota malformedResp "not json" rfl
    (fun req => rfl) rfl (by decide)
  have h3 := (claim_C2_amended ncFail aliceCtx alice "connection refused"
    rfl).2.2 refA "data" "v1" (fun req => rfl)
  exact ⟨h1, h2, h2q, h3.1, h3.2.2⟩

/-- C5 fails as stated: with identical inputs the two versions of Move
send different JSON bodies (the src/pkg version uses keys oldRef/newRef,
the part_000 version uses from/to), and from one and the same quota
response the two versions of GetQuota compute different results (the
src/pkg version reads maxBytes/maxFiles, the part_000 version reads
total/used). -/
theorem claim_C5_counterexample :
    ((NCA.Move c4Nc aliceCtx refA refB).trace ≠
        (NCB.Move c4Nc aliceCtx refA refB).trace) ∧
      (NCA.GetQuota ncQuota aliceCtx).result = .ok (10, 5) ∧
      (NCB.GetQuota ncQuota aliceCtx).result = .ok (3, 1) :=
  ⟨by decide, rfl, rfl⟩

/-- C5 (amended): for identical inputs both versions of Move issue one
POST with the same URL and verb Move, but serialize the two references
under different JSON keys — oldRef/newRef in the src/pkg version,
from/to in part_000 — so the bodies differ; and from the same response
object, GetQuota of the src/pkg version reads the maxBytes and maxFiles
fields while the part_000 version reads total and used.  The two versions
are therefore not observationally equivalent. -/
theorem claim_C5_amended (nc : StorageDriver) (ctx : Ctx) (u : User)
    (oldRef newRef : Reference) (hu : ctx.user = some u) :
    ((NCA.Move nc ctx oldRef newRef).trace =
        [mkDoReq nc u ⟨"Move", (Json.obj [("oldRef", refJson oldRef),
          ("newRef", refJson newRef)]).render⟩] ∧
      (NCB.Move nc ctx oldRef newRef).trace =
        [mkDoReq nc u ⟨"Move", (Json.obj [("from", refJson oldRef),
          ("to", refJson newRef)]).render⟩]) ∧
    (∀ resp fs mb mf t us,
      nc.client (mkDoReq nc u ⟨"GetQuota", ""⟩) = .ok resp →
      resp.body = .ok (.json (.obj fs)) →
      lookupField fs "maxBytes" = some (.num mb) →
      lookupField fs "maxFiles" = some (.num mf) →
      lookupField fs "total" = some (.num t) →
      lookupField fs "used" = some (.num us) →
      (NCA.GetQuota nc ctx).result = .ok (mb.toNat, mf.toNat) ∧
      (NCB.GetQuota nc ctx).result = .ok (t.toNat, us.toNat)) := by
  constructor
  · constructor
    · simp only [NCA.Move, Eff.void_trace, Eff.mapRes_trace]
      exact doAction_trace_some _ hu
    · simp only [NCB.Move, Eff.void_trace, Eff.mapRes_trace]
      exact doAction_trace_some _ hu
  · intro resp fs mb mf t us hc hb hmb hmf ht hus
    have hd := doAction_ok hu hc hb
    constructor
    · simp [NCA.GetQuota, hd, unmarshalObjMap, hmb, hmf, assertNum]
    · simp [NCB.GetQuota, hd, unmarshalObjMap, ht, hus, assertNum]

theorem claim_C5_amended_witness :
    ((NCA.Move c4Nc aliceCtx refA refB).trace =
        [mkDoReq c4Nc alice ⟨"Move", (Json.obj [("oldRef", refJson refA),
          ("newRef", refJson refB)]).render⟩] ∧
      (NCB.Move c4Nc aliceCtx refA refB).trace =
        [mkDoReq c4Nc alice ⟨"Move", (Json.obj [("from", refJson refA),
          ("to", refJson refB)]).render⟩]) ∧
      (NCA.GetQuota ncQuota aliceCtx).result =
        .ok ((10 : Int).toNat, (5 : Int).toNat) ∧
      (NCB.GetQuota ncQuota aliceCtx).result =
        .ok ((3 : Int).toNat, (1 : Int).toNat) := by
  have h := claim_C5_amended c4Nc aliceCtx alice refA refB rfl
  have h2 := claim_C5_amended ncQuota aliceCtx alice refA refB rfl
  have hq := h2.2 quotaResp _ 10 5 3 1 rfl rfl rfl rfl rfl rfl
  exact ⟨h.1, hq.1, hq.2⟩

/-- C4 fails as stated: in the part_000 version, ListFolder does not build
its result from the response elements — on a response whose single element
has path /foo it returns an entry whose Path is the hardcoded "/subdir",
whose Mtime is the hardcoded 1234567890 and whose owner is a fixed opaque
id, while the deserialization of that element has path /foo (as the
src/pkg version returns). -/
theorem claim_C4_counterexample :
    (NCB.ListFolder c4Nc aliceCtx refA []).result = .ok [riHard] ∧
      decodeResourceInfo c4Item = .ok riResp ∧
      riHard.path = "/subdir" ∧
      riResp.path = "/foo" ∧
      riHard ≠ riResp ∧
      riHard.mtimeSeconds = 1234567890 ∧
      (NCA.ListFolder c4Nc aliceCtx refA []).result = .ok [riResp] :=
  ⟨rfl, rfl, rfl, rfl, by decide, rfl, rfl⟩

/-- C4 (amended): in the src/pkg version, each list-returning operation
(ListFolder, ListRevisions, ListRecycle, ListGrants) that succeeds on a
JSON-array response returns a list of the same length, in the same order,
whose i-th element is the deserialization of the i-th array element into
the expected return type; the part_000 version's ListFolder instead
hardcodes Path, Mtime, Owner, Size and Type (see the counterexample). -/
theorem claim_C4_amended (nc : StorageDriver) (ctx : Ctx) (u : User)
    (resp : HttpResponse) (xs : List Json) (hu : ctx.user = some u)
    (hb : resp.body = .ok (.json (.arr xs))) :
    (∀ ref mdKeys l,
      nc.client (mkDoReq nc u
        ⟨"ListFolder", (refMdKeysParams ref mdKeys).render⟩) = .ok resp →
      resp.statusCode ≠ 404 →
      (NCA.ListFolder nc ctx ref mdKeys).result = .ok l →
      l.length = xs.length ∧
        ∀ i (hi : i < xs.length) (hl : i < l.length),
          decodeResourceInfo (xs.get ⟨i, hi⟩) = .ok (l.get ⟨i, hl⟩)) ∧
    (∀ ref l,
      nc.client (mkDoReq nc u
        ⟨"ListRevisions", (refJson ref).render⟩) = .ok resp →
      (NCA.ListRevisions nc ctx ref).result = .ok l →
      l.length = xs.length ∧
        ∀ i (hi : i < xs.length) (hl : i < l.length),
          decodeFileVersion (xs.get ⟨i, hi⟩) = .ok (l.get ⟨i, hl⟩)) ∧
    (∀ key path l,
      nc.client (mkDoReq nc u ⟨"ListRecycle", (Json.obj [("key", .str key),
        ("path", .str path)]).render⟩) = .ok resp →
      (NCA.ListRecycle nc ctx key path).result = .ok l →
      l.length = xs.length ∧
        ∀ i (hi : i < xs.length) (hl : i < l.length),
          decodeRecycleItem (xs.get ⟨i, hi⟩) = .ok (l.get ⟨i, hl⟩)) ∧
    (∀ ref l,
      nc.client (mkDoReq nc u
        ⟨"ListGrants", (grantJson NCA.listGrantsBodyGrant).render⟩) = .ok resp →
      (NCA.ListGrants nc ctx ref).result = .ok l →
      l.length = xs.length ∧
        ∀ i (hi : i < xs.length) (hl : i < l.length),
          decodeGrant (xs.get ⟨i, hi⟩) = .ok (l.get ⟨i, hl⟩)) := by
  refine ⟨?_, ?_, ?_, ?_⟩
  · intro ref mdKeys l hc hst hres
    have hd := doAction_ok hu hc hb
    simp only [NCA.ListFolder, Eff.mapRes_result, hd, Res.bind_ok] at hres
    rw [if_neg hst] at hres
    simp only [unmarshalArr] at hres
    cases hm : mapExcept decodeResourceInfo xs with
    | error e => rw [hm] at hres; exact absurd hres (by simp)
    | ok l' =>
      rw [hm] at hres
      simp only [Res.ok.injEq] at hres
      subst hres
      exact ⟨mapExcept_ok_length hm, mapExcept_ok_get hm⟩
  · intro ref l hc hres
    have hd := doAction_ok hu hc hb
    simp only [NCA.ListRevisions, Eff.mapRes_result, hd, Res.bind_ok] at hres
    simp only [unmarshalArr] at hres
    cases hm : mapExcept decodeFileVersion xs with
    | error e => rw [hm] at hres; exact absurd hres (by simp)
    | ok l' =>
      rw [hm] at hres
      simp only [Res.ok.injEq] at hres
      subst hres
      exact ⟨mapExcept_ok_length hm, mapExcept_ok_get hm⟩
  · intro key path l hc hres
    have hd := doAction_ok hu hc hb
    simp only [NCA.ListRecycle, Eff.mapRes_result, hd, Res.bind_ok] at hres
    simp only [unmarshalArr] at hres
    cases hm : mapExcept decodeRecycleItem xs with
    | error e => rw [hm] at hres; exact absurd hres (by simp)
    | ok l' =>
      rw [hm] at hres
      simp only [Res.ok.injEq] at hres
      subst hres
      exact ⟨mapExcept_ok_length hm, mapExcept_ok_get hm⟩
  · intro ref l hc hres
    have hd := doAction_ok hu hc hb
    simp only [NCA.ListGrants, Eff.mapRes_result, hd, Res.bind_ok] at hres
    simp only [unmarshalArr] at hres
    cases hm : mapExcept decodeGrant xs with
    | error e => rw [hm] at hres; exact absurd hres (by simp)
    | ok l' =>
      rw [hm] at hres
      simp only [Res.ok.injEq] at hres
      subst hres
      exact ⟨mapExcept_ok_length hm, mapExcept_ok_get hm⟩

theorem claim_C4_amended_witness :
    ([riResp] : List ResourceInfo).length = ([c4Item] : List Json).length ∧
      ∀ i (hi : i < ([c4Item] : List Json).length)
        (hl : i < ([riResp] : List ResourceInfo).length),
        decodeResourceInfo (([c4Item] : List Json).get ⟨i, hi⟩) =
          .ok (([riResp] : List ResourceInfo).get ⟨i, hl⟩) :=
  (claim_C4_amended c4Nc aliceCtx alice c4Resp [c4Item] rfl rfl).1
    refA [] [riResp] rfl (by decide) rfl

/-- C9: GetMD and ListFolder (in both versions) return a NotFound error
exactly when the round-trip succeeds and the backend answers with HTTP
status 404; for any other status the src/pkg versions instead return the
deserialization of the response body (stated as an equation), and a
transport failure is returned as a transport error, never as NotFound. -/
theorem claim_C9_notfound_iff_404 (nc : StorageDriver) (ctx : Ctx)
    (u : User) (ref : Reference) (mdKeys : List String)
    (resp : HttpResponse) (bd : BodyData) (hu : ctx.user = some u)
    (hb : resp.body = .ok bd) :
    (nc.client (mkDoReq nc u
        ⟨"GetMD", (refMdKeysParams ref mdKeys).render⟩) = .ok resp →
      (((NCA.GetMD nc ctx ref mdKeys).result = .err (.notFound "") ↔
          resp.statusCode = 404) ∧
        ((NCB.GetMD nc ctx ref mdKeys).result = .err (.notFound "") ↔
          resp.statusCode = 404)) ∧
      (resp.statusCode ≠ 404 →
        (NCA.GetMD nc ctx ref mdKeys).result =
          resOfExcept (unmarshalResourceInfo bd))) ∧
    (nc.client (mkDoReq nc u
        ⟨"ListFolder", (refMdKeysParams ref mdKeys).render⟩) = .ok resp →
      (((NCA.ListFolder nc ctx ref mdKeys).result = .err (.notFound "") ↔
          resp.statusCode = 404) ∧
        ((NCB.ListFolder nc ctx ref mdKeys).result = .err (.notFound "") ↔
          resp.statusCode = 404)) ∧
      (resp.statusCode ≠ 404 →
        (NCA.ListFolder nc ctx ref mdKeys).result =
          resOfExcept (unmarshalArr decodeResourceInfo bd))) ∧
    (∀ m, nc.client (mkDoReq nc u
        ⟨"GetMD", (refMdKeysParams ref mdKeys).render⟩) = .error m →
      (NCA.GetMD nc ctx ref mdKeys).result = .err (.transport m)) := by
  refine ⟨?_, ?_, ?_⟩
  · intro hc
    have hd := doAction_ok hu hc hb
    by_cases hst : resp.statusCode = 404
    · refine ⟨⟨?_, ?_⟩, fun hne => absurd hst hne⟩
      · simp [NCA.GetMD, hd, hst]
      · simp [NCB.GetMD, hd, hst]
    · have hresA : (NCA.GetMD nc ctx ref mdKeys).result =
          (match unmarshalResourceInfo bd with
           | .error m => .err (.unmarshal m)
           | .ok ri => .ok ri) := by
        simp only [NCA.GetMD, Eff.mapRes_result, hd, Res.bind_ok]
        rw [if_neg hst]
      have hresB : (NCB.GetMD nc ctx ref mdKeys).result =
          (match unmarshalObjMap bd with
           | .error m => .err (.unmarshal m)
           | .ok fs => NCB.decodeGetMD ref.path fs) := by
        simp only [NCB.GetMD, Eff.mapRes_result, hd, Res.bind_ok]
        rw [if_neg hst]
      refine ⟨⟨?_, ?_⟩, fun _ => ?_⟩
      · constructor
        · intro hcontra
          rw [hresA] at hcontra
          cases hum : unmarshalResourceInfo bd <;>
            rw [hum] at hcontra <;> simp at hcontra
        · intro h404
          exact absurd h404 hst
      · constructor
        · intro hcontra
          rw [hresB] at hcontra
          cases hum : unmarshalObjMap bd with
          | error m => rw [hum] at hcontra; simp at hcontra
          | ok fs =>
            rw [hum] at hcontra
            simp only [] at hcontra
            exact absurd hcontra (decodeGetMD_no_err ref.path fs _)
        · intro h404
          exact absurd h404 hst
      · rw [hresA]
        cases hum : unmarshalResourceInfo bd <;> simp [hum, resOfExcept]
  · intro hc
    have hd := doAction_ok hu hc hb
    by_cases hst : resp.statusCode = 404
    · refine ⟨⟨?_, ?_⟩, fun hne => absurd hst hne⟩
      · simp [NCA.ListFolder, hd, hst]
      · simp [NCB.ListFolder, hd, hst]
    · have hresA : (NCA.ListFolder nc ctx ref mdKeys).result =
          (match unmarshalArr decodeResourceInfo bd with
           | .error m => .err (.unmarshal m)
           | .ok l => .ok l) := by
        simp only [NCA.ListFolder, Eff.mapRes_result, hd, Res.bind_ok]
        rw [if_neg hst]
      have hresB : (NCB.ListFolder nc ctx ref mdKeys).result =
          (match unmarshalRawArr bd with
           | .error m => .err (.unmarshal m)
           | .ok xs => mapRes NCB.decodeListFolderItem xs) := by
        simp only [NCB.ListFolder, Eff.mapRes_result, hd, Res.bind_ok]
        rw [if_neg hst]
      refine ⟨⟨?_, ?_⟩, fun _ => ?_⟩
      · constructor
        · intro hcontra
          rw [hresA] at hcontra
          cases hum : unmarshalArr decodeResourceInfo bd <;>
            rw [hum] at hcontra <;> simp at hcontra
        · intro h404
          exact absurd h404 hst
      · constructor
        · intro hcontra
          rw [hresB] at hcontra
          cases hum : unmarshalRawArr bd with
          | error m => rw [hum] at hcontra; simp at hcontra
          | ok xs =>
            rw [hum] at hcontra
            simp only [] at hcontra
            exact absurd hcontra
              (mapRes_no_err (fun j => decodeListFolderItem_no_err j) xs _)
        · intro h404
          exact absurd h404 hst
      · rw [hresA]
        cases hum : unmarshalArr decodeResourceInfo bd <;>
          simp [hum, resOfExcept]
  · intro m hc
    simp [NCA.GetMD, doAction_transport hu hc]

theorem claim_C9_notfound_iff_404_witness :
    (NCA.GetMD nc404 aliceCtx refA []).result = .err (.notFound "") ∧
      (NCB.ListFolder nc404 aliceCtx refA []).result =
        .err (.notFound "") := by
  have h := claim_C9_notfound_iff_404 nc404 aliceCtx alice refA []
    resp404 (.json .null) rfl rfl
  exact ⟨((h.1 rfl).1.1).mpr rfl, ((h.2.1 rfl).1.2).mpr rfl⟩

end Reva
